import Mathlib

/-!
# Verification of the Miner falling-object puzzle engine

Shallow embedding of the TypeScript sources:
* `src/game/entities/*` — the entity model (`Entity`, `Player`, `Boulder`,
  `Diamond`, `Dirt`, `Wall`, `Exit`);
* `src/game/core/GameGrid.ts` — the grid store;
* `src/game/core/Level.ts` — level construction and `Level.isComplete`;
* `src/engine/GameLogic.ts` — the movement resolver, physics resolver and
  completion check used by the turn-based engine;
* `src/game/core/MovementSystem.ts` — the older frame-based movement resolver;
* `src/game/core/PhysicsSystem.ts` — the older frame-based physics resolver;
* `src/engine/GameEngine.ts` — the turn scheduler / engine state machine.

JavaScript objects are embedded as records; object mutation through an
aliased reference is modelled by writing the updated record back into the
grid cell that owns the object (each entity lives in at most one cell, so
this is faithful).  `Date.now()` is replaced by an explicit `now` argument
as the spec itself recommends.  JavaScript numbers that only ever hold
integers are `Int`; times are `Rat`.
-/

/-- Entity kinds, mirroring the `EntityType` string enum in `Entity.ts`. -/
inductive EKind where
  | empty
  | player
  | boulder
  | diamond
  | dirt
  | wall
  | exitK
deriving DecidableEq, Repr

/-- One game object.  The TypeScript `Entity` class hierarchy is flattened
into a single record carrying every subclass field (unused fields keep their
defaults, matching `undefined` reads being falsy in JavaScript). -/
structure Entity where
  x : Int
  y : Int
  kind : EKind
  solid : Bool
  movable : Bool
  collectible : Bool
  fallable : Bool
  /-- animation support (`Entity.ts`) -/
  previousX : Int
  previousY : Int
  isAnimating : Bool := false
  /-- `Player.ts` -/
  alive : Bool := true
  diamondsCollected : Int := 0
  /-- `Boulder.ts` / `Diamond.ts` -/
  falling : Bool := false
  points : Int := 10
  /-- `Dirt.ts` -/
  diggable : Bool := false
  /-- `Exit.ts` -/
  isOpen : Bool := false
  diamondsRequired : Int := 0
  /-- `Wall.ts` -/
  destructible : Bool := false
deriving DecidableEq, Repr

namespace Entity

/-- `new Player(x, y)` -/
def mkPlayer (x y : Int) : Entity :=
  { x, y, kind := .player, solid := true, movable := true,
    collectible := false, fallable := false,
    previousX := x, previousY := y, alive := true, diamondsCollected := 0 }

/-- `new Boulder(x, y)` -/
def mkBoulder (x y : Int) : Entity :=
  { x, y, kind := .boulder, solid := true, movable := true,
    collectible := false, fallable := true,
    previousX := x, previousY := y, falling := false }

/-- `new Diamond(x, y, points)` -/
def mkDiamond (x y : Int) (points : Int := 10) : Entity :=
  { x, y, kind := .diamond, solid := false, movable := true,
    collectible := true, fallable := true,
    previousX := x, previousY := y, falling := false, points }

/-- `new Dirt(x, y)` -/
def mkDirt (x y : Int) : Entity :=
  { x, y, kind := .dirt, solid := true, movable := false,
    collectible := false, fallable := false,
    previousX := x, previousY := y, diggable := true }

/-- `new Wall(x, y, destructible)` -/
def mkWall (x y : Int) (destructible : Bool := false) : Entity :=
  { x, y, kind := .wall, solid := true, movable := false,
    collectible := false, fallable := false,
    previousX := x, previousY := y, destructible }

/-- `new Exit(x, y, diamondsRequired)`: `isOpen` starts true iff the quota
is zero, and `solid` starts false unconditionally. -/
def mkExit (x y : Int) (diamondsRequired : Int := 0) : Entity :=
  { x, y, kind := .exitK, solid := false, movable := false,
    collectible := false, fallable := false,
    previousX := x, previousY := y,
    isOpen := diamondsRequired = 0, diamondsRequired }

/-- `Entity.setPosition`: records the previous position and sets the
animation flag only when the position actually changes. -/
def setPosition (e : Entity) (x y : Int) : Entity :=
  if x ≠ e.x ∨ y ≠ e.y then
    { e with previousX := e.x, previousY := e.y, isAnimating := true, x, y }
  else
    { e with x, y }

/-- `Entity.resetAnimation` -/
def resetAnimation (e : Entity) : Entity :=
  { e with previousX := e.x, previousY := e.y, isAnimating := false }

/-- `Dirt.dig`: the dirt becomes an empty, non-solid, non-diggable entity
but stays in its cell. -/
def dig (e : Entity) : Entity :=
  { e with kind := .empty, solid := false, diggable := false }

/-- `Exit.open` -/
def openExit (e : Entity) : Entity :=
  { e with isOpen := true, solid := false }

/-- `Exit.checkOpenCondition` -/
def checkOpenCondition (e : Entity) (diamondsCollected : Int) : Entity :=
  if diamondsCollected ≥ e.diamondsRequired ∧ ¬e.isOpen then e.openExit else e

end Entity

/-- The grid store (`GameGrid.ts`): a `width`×`height` board of optional
entities.  Cells are a total function so that out-of-bounds reads are
handled exactly as in the source (`getEntity` checks bounds first). -/
structure GameGrid where
  width : Nat
  height : Nat
  cells : Int → Int → Option Entity

namespace GameGrid

/-- `GameGrid.isValidPosition` -/
def isValidPosition (g : GameGrid) (x y : Int) : Bool :=
  0 ≤ x ∧ x < (g.width : Int) ∧ 0 ≤ y ∧ y < (g.height : Int)

/-- raw cell write (the `this.grid[y][x] = entity` assignment) -/
def setCell (g : GameGrid) (x y : Int) (v : Option Entity) : GameGrid :=
  { g with cells := fun a b => if a = x ∧ b = y then v else g.cells a b }

/-- `GameGrid.getEntity`: fails closed (returns `none`) out of bounds. -/
def getEntity (g : GameGrid) (x y : Int) : Option Entity :=
  if g.isValidPosition x y then g.cells x y else none

/-- `GameGrid.setEntity`: fails closed out of bounds; a non-null entity has
its stored coordinates updated to the cell being written. -/
def setEntity (g : GameGrid) (x y : Int) (v : Option Entity) :
    GameGrid × Bool :=
  if ¬g.isValidPosition x y then (g, false)
  else
    match v with
    | some e => (g.setCell x y (some (e.setPosition x y)), true)
    | none => (g.setCell x y none, true)

/-- `GameGrid.moveEntity`: fails closed when either coordinate is out of
bounds, when the source is empty, or when the destination holds a solid
entity; otherwise clears the source, writes the entity to the destination
and updates its stored coordinates.  (The source's trailing
`entity.setPosition(toX, toY)` is a no-op on the already-updated object and
is therefore absorbed.) -/
def moveEntity (g : GameGrid) (fromX fromY toX toY : Int) :
    GameGrid × Bool :=
  if ¬(g.isValidPosition fromX fromY ∧ g.isValidPosition toX toY) then
    (g, false)
  else
    match g.getEntity fromX fromY with
    | none => (g, false)
    | some e =>
      match g.getEntity toX toY with
      | some t =>
        if t.solid then (g, false)
        else
          (((g.setEntity fromX fromY none).1.setEntity toX toY (some e)).1,
            true)
      | none =>
        (((g.setEntity fromX fromY none).1.setEntity toX toY (some e)).1,
          true)

/-- `GameGrid.removeEntity`: fails closed out of bounds, otherwise clears
the cell and returns what it held. -/
def removeEntity (g : GameGrid) (x y : Int) : GameGrid × Option Entity :=
  if ¬g.isValidPosition x y then (g, none)
  else ((g.setEntity x y none).1, g.getEntity x y)

/-- scan order of `findEntityByType`: rows top to bottom, columns left to
right. -/
def scanCoords (w h : Nat) : List (Int × Int) :=
  (List.range h).flatMap fun y =>
    (List.range w).map fun x => ((x : Int), (y : Int))

/-- `GameGrid.findEntityByType`: first entity of the given kind in scan
order. -/
def findEntityByType (g : GameGrid) (k : EKind) : Option Entity :=
  (scanCoords g.width g.height).findSome? fun c =>
    match g.cells c.1 c.2 with
    | some e => if e.kind = k then some e else none
    | none => none

end GameGrid

/-- `Direction` from `InputManager.ts`. -/
inductive Direction where
  | up
  | down
  | left
  | right
deriving DecidableEq, Repr

/-- `MovementResult` (`GameLogic.ts`); optional fields default to their
JavaScript-falsy values, `scoreChange` keeps the present/absent distinction. -/
structure MovementResult where
  success : Bool
  diamondCollected : Bool := false
  playerDied : Bool := false
  levelComplete : Bool := false
  scoreChange : Option Int := none
  message : Option String := none
deriving DecidableEq, Repr

namespace GameLogic

/-- `GameLogic.getDirectionVector` -/
def getDirectionVector : Direction → Int × Int
  | .up => (0, -1)
  | .down => (0, 1)
  | .left => (-1, 0)
  | .right => (1, 0)

/-- `GameLogic.executePlayerMove` -/
def executePlayerMove (g : GameGrid) (player : Entity) (newX newY : Int) :
    GameGrid × MovementResult :=
  let r := g.moveEntity player.x player.y newX newY
  (r.1, { success := r.2 })

/-- `GameLogic.handleDirtMovement`: the dirt is dug in place (mutation of
the object in its cell), then the player moves onto it. -/
def handleDirtMovement (g : GameGrid) (player dirt : Entity)
    (newX newY : Int) : GameGrid × MovementResult :=
  let g1 := g.setCell newX newY (some dirt.dig)
  executePlayerMove g1 player newX newY

/-- `GameLogic.handleDiamondCollection`: `player.collectDiamond()`
increments the counter by one (mutating the player object in its cell), the
diamond is removed, the player moves there, and the result reports
`diamondCollected` with `scoreChange = diamond.points`. -/
def handleDiamondCollection (g : GameGrid) (player diamond : Entity)
    (newX newY : Int) : GameGrid × MovementResult :=
  let player1 := { player with diamondsCollected := player.diamondsCollected + 1 }
  let g1 := g.setCell player.x player.y (some player1)
  let g2 := (g1.removeEntity newX newY).1
  let r := executePlayerMove g2 player1 newX newY
  (r.1, { r.2 with diamondCollected := true, scoreChange := some diamond.points })

/-- `GameLogic.handleBoulderPush`: vertical pushes are rejected first;
otherwise the cell beyond must be in-bounds and empty, the boulder is moved
there and the player follows. -/
def handleBoulderPush (g : GameGrid) (player : Entity) (newX newY : Int)
    (direction : Direction) : GameGrid × MovementResult :=
  if direction = .up ∨ direction = .down then (g, { success := false })
  else
    let v := getDirectionVector direction
    let boulderNewX := newX + v.1
    let boulderNewY := newY + v.2
    if ¬g.isValidPosition boulderNewX boulderNewY then (g, { success := false })
    else
      match g.getEntity boulderNewX boulderNewY with
      | some _ => (g, { success := false })
      | none =>
        let r := g.moveEntity newX newY boulderNewX boulderNewY
        if ¬r.2 then (r.1, { success := false })
        else executePlayerMove r.1 player newX newY

/-- `GameLogic.handleExitMovement`: fails unless the quota is met and the
exit is not solid; on success only `player.setPosition` runs — the player
object (still referenced from its old grid cell) gets the exit coordinates,
and no grid cell changes hands. -/
def handleExitMovement (g : GameGrid) (player exitE : Entity)
    (newX newY : Int) : GameGrid × MovementResult :=
  if player.diamondsCollected < exitE.diamondsRequired then
    (g, { success := false })
  else if exitE.solid then (g, { success := false })
  else
    (g.setCell player.x player.y (some (player.setPosition newX newY)),
      { success := true, levelComplete := true })

/-- `GameLogic.movePlayer`: dispatch on the target cell's entity kind. -/
def movePlayer (g : GameGrid) (direction : Direction) :
    GameGrid × MovementResult :=
  match g.findEntityByType .player with
  | none => (g, { success := false })
  | some player =>
    if ¬player.alive then (g, { success := false })
    else
      let v := getDirectionVector direction
      let newX := player.x + v.1
      let newY := player.y + v.2
      if ¬g.isValidPosition newX newY then (g, { success := false })
      else
        match g.getEntity newX newY with
        | none => executePlayerMove g player newX newY
        | some target =>
          match target.kind with
          | .dirt => handleDirtMovement g player target newX newY
          | .diamond => handleDiamondCollection g player target newX newY
          | .boulder => handleBoulderPush g player newX newY direction
          | .wall => (g, { success := false })
          | .exitK => handleExitMovement g player target newX newY
          | _ => (g, { success := false })

/-- `GameLogic.checkLevelComplete`: player at the exit's stored position,
quota met on the exit's requirement, and the exit open. -/
def checkLevelComplete (g : GameGrid) : Bool :=
  match g.findEntityByType .player, g.findEntityByType .exitK with
  | some player, some exitE =>
    (player.x = exitE.x ∧ player.y = exitE.y) ∧
      player.diamondsCollected ≥ exitE.diamondsRequired ∧ exitE.isOpen
  | _, _ => false

end GameLogic

/-- `PhysicsResult` (`GameLogic.ts`). -/
structure PhysicsResult where
  entityMoved : Bool
  playerDied : Bool := false
deriving DecidableEq, Repr

namespace GameLogic

/-- `GameLogic.tryMoveBoulderDown`: result is the updated grid plus
`(moved, playerKilled)`.  Mutations of the boulder object (`startFalling`,
`stopFalling`) are written back to its cell before any move, exactly as the
shared-object mutation behaves in the source. -/
def tryMoveBoulderDown (g : GameGrid) (boulder : Entity) (x y : Int) :
    GameGrid × Bool × Bool :=
  let belowY := y + 1
  if ¬g.isValidPosition x belowY then
    (g.setCell x y (some { boulder with falling := false }), false, false)
  else
    match g.getEntity x belowY with
    | none =>
      let b1 := { boulder with falling := true }
      let g1 := g.setCell x y (some b1)
      let r := g1.moveEntity x y x belowY
      (r.1, r.2, false)
    | some entityBelow =>
      if entityBelow.kind = .player ∧ boulder.falling then
        (g.setCell x belowY (some { entityBelow with alive := false }),
          false, true)
      else
        (g.setCell x y (some { boulder with falling := false }), false, false)

/-- `GameLogic.tryMoveDiamondDown`: identical structure to the boulder
case. -/
def tryMoveDiamondDown (g : GameGrid) (diamond : Entity) (x y : Int) :
    GameGrid × Bool × Bool :=
  let belowY := y + 1
  if ¬g.isValidPosition x belowY then
    (g.setCell x y (some { diamond with falling := false }), false, false)
  else
    match g.getEntity x belowY with
    | none =>
      let d1 := { diamond with falling := true }
      let g1 := g.setCell x y (some d1)
      let r := g1.moveEntity x y x belowY
      (r.1, r.2, false)
    | some entityBelow =>
      if entityBelow.kind = .player ∧ diamond.falling then
        (g.setCell x belowY (some { entityBelow with alive := false }),
          false, true)
      else
        (g.setCell x y (some { diamond with falling := false }), false, false)

/-- `GameLogic.tryRollDirection` (`direction` is `1` for right, `-1` for
left): the side cell and the diagonal cell must be in bounds and empty;
on success the entity moves one combined diagonal step and, if it is a
boulder or diamond, starts falling. -/
def tryRollDirection (g : GameGrid) (entity : Entity) (x y direction : Int) :
    GameGrid × Bool × Bool :=
  let sideX := x + direction
  let diagonalY := y + 1
  let diagonalX := x + direction
  if ¬g.isValidPosition sideX y ∨ ¬g.isValidPosition diagonalX diagonalY then
    (g, false, false)
  else
    match g.getEntity sideX y with
    | some _ => (g, false, false)
    | none =>
      match g.getEntity diagonalX diagonalY with
      | some _ => (g, false, false)
      | none =>
        let r := g.moveEntity x y diagonalX diagonalY
        if r.2 then
          if entity.kind = .boulder ∨ entity.kind = .diamond then
            match r.1.getEntity diagonalX diagonalY with
            | some moved =>
              (r.1.setCell diagonalX diagonalY
                  (some { moved with falling := true }), true, false)
            | none => (r.1, true, false)
          else (r.1, true, false)
        else (r.1, false, false)

/-- `GameLogic.tryRolling`: the entity rolls only off a non-falling boulder
or diamond directly beneath it; the right direction is tried before the
left. -/
def tryRolling (g : GameGrid) (entity : Entity) (x y : Int) :
    GameGrid × Bool × Bool :=
  let belowY := y + 1
  if ¬g.isValidPosition x belowY then (g, false, false)
  else
    match g.getEntity x belowY with
    | none => (g, false, false)
    | some entityBelow =>
      let isBottomRollable :=
        entityBelow.kind = .boulder ∨ entityBelow.kind = .diamond
      let isBottomFalling := entityBelow.falling
      if ¬isBottomRollable ∨ isBottomFalling then (g, false, false)
      else
        let r := tryRollDirection g entity x y 1
        if r.2.1 then r
        else tryRollDirection g entity x y (-1)

/-- Per-cell accumulator state of `updatePhysics`:
grid, `entityMoved`, `playerDied`. -/
abbrev PhysState := GameGrid × Bool × Bool

/-- One cell of Pass 1 (gravity) of `GameLogic.updatePhysics`, including
the outer "couldn't move, something below → stop falling" fix-up, which
reads the (possibly already updated) object back from its cell. -/
def pass1Step (s : PhysState) (c : Int × Int) : PhysState :=
  let g := s.1
  let x := c.1
  let y := c.2
  match g.getEntity x y with
  | some entity =>
    if entity.kind = .boulder ∨ entity.kind = .diamond then
      let r :=
        if entity.kind = .boulder then tryMoveBoulderDown g entity x y
        else tryMoveDiamondDown g entity x y
      let g1 := r.1
      let moved := r.2.1
      let killed := r.2.2
      let g2 :=
        if moved then g1
        else
          let belowY := y + 1
          if g1.isValidPosition x belowY ∧ (g1.getEntity x belowY).isSome then
            match g1.getEntity x y with
            | some cur =>
              if cur.falling then
                g1.setCell x y (some { cur with falling := false })
              else g1
            | none => g1
          else g1
      (g2, s.2.1 ∨ moved, s.2.2 ∨ killed)
    else s
  | none => s

/-- One cell of Pass 2 (rolling) of `GameLogic.updatePhysics`. -/
def pass2Step (s : PhysState) (c : Int × Int) : PhysState :=
  let g := s.1
  let x := c.1
  let y := c.2
  match g.getEntity x y with
  | some entity =>
    if entity.kind = .boulder ∨ entity.kind = .diamond then
      let r := tryRolling g entity x y
      (r.1, s.2.1 ∨ r.2.1, s.2.2 ∨ r.2.2)
    else s
  | none => s

/-- The scan order of both physics passes: rows from `height - 2` down to
`0`, columns left to right within a row.  The bottom row (`height - 1`) is
never visited. -/
def physCoords (w h : Nat) : List (Int × Int) :=
  (List.range (h - 1)).reverse.flatMap fun y =>
    (List.range w).map fun x => ((x : Int), (y : Int))

/-- `GameLogic.updatePhysics`: Pass 1 (gravity) followed by Pass 2
(rolling), both over the same scan order. -/
def updatePhysics (g : GameGrid) : GameGrid × PhysicsResult :=
  let cs := physCoords g.width g.height
  let s1 := cs.foldl pass1Step (g, false, false)
  let s2 := cs.foldl pass2Step s1
  (s2.1, { entityMoved := s2.2.1, playerDied := s2.2.2 })

end GameLogic

/-! ## The older frame-based resolvers (`MovementSystem.ts`, `PhysicsSystem.ts`) -/

namespace MovementSystem

/-- `MovementSystem.getDirectionVector` (has a `(0,0)` default arm). -/
def getDirectionVector : Direction → Int × Int
  | .up => (0, -1)
  | .down => (0, 1)
  | .left => (-1, 0)
  | .right => (1, 0)

/-- `MovementSystem.movePlayerToPosition` -/
def movePlayerToPosition (g : GameGrid) (player : Entity) (newX newY : Int) :
    GameGrid × MovementResult :=
  let r := g.moveEntity player.x player.y newX newY
  (r.1, { success := r.2 })

/-- `MovementSystem.handleDirtMovement` -/
def handleDirtMovement (g : GameGrid) (player dirt : Entity)
    (newX newY : Int) : GameGrid × MovementResult :=
  let g1 := g.setCell newX newY (some dirt.dig)
  movePlayerToPosition g1 player newX newY

/-- `MovementSystem.handleDiamondCollection` (no `scoreChange` field in
this system's result). -/
def handleDiamondCollection (g : GameGrid) (player : Entity)
    (newX newY : Int) : GameGrid × MovementResult :=
  let player1 := { player with diamondsCollected := player.diamondsCollected + 1 }
  let g1 := g.setCell player.x player.y (some player1)
  let g2 := (g1.removeEntity newX newY).1
  let r := movePlayerToPosition g2 player1 newX newY
  (r.1, { r.2 with diamondCollected := true })

/-- `MovementSystem.handleBoulderPush`: unlike `GameLogic`, there is **no**
check on the push direction — any direction succeeds when the cell beyond
the boulder is in-bounds and empty. -/
def handleBoulderPush (g : GameGrid) (player : Entity) (newX newY : Int)
    (direction : Direction) : GameGrid × MovementResult :=
  let v := getDirectionVector direction
  let boulderNewX := newX + v.1
  let boulderNewY := newY + v.2
  if ¬g.isValidPosition boulderNewX boulderNewY then (g, { success := false })
  else
    match g.getEntity boulderNewX boulderNewY with
    | some _ => (g, { success := false })
    | none =>
      let r := g.moveEntity newX newY boulderNewX boulderNewY
      if ¬r.2 then (r.1, { success := false })
      else movePlayerToPosition r.1 player newX newY

/-- `MovementSystem.handleExitMovement`: on success the player's stored
position becomes the exit cell and the player is removed from its old grid
cell (it is not written to the exit cell). -/
def handleExitMovement (g : GameGrid) (player exitE : Entity)
    (newX newY : Int) : GameGrid × MovementResult :=
  if player.diamondsCollected < exitE.diamondsRequired then
    (g, { success := false, message := some "need more diamonds" })
  else if exitE.solid then (g, { success := false })
  else
    let oldX := player.x
    let oldY := player.y
    let g1 := g.setCell oldX oldY
      (some (player.setPosition newX newY))
    let g2 := (g1.setEntity oldX oldY none).1
    (g2, { success := true, message := some "level complete" })

/-- `MovementSystem.movePlayer` -/
def movePlayer (g : GameGrid) (direction : Direction) :
    GameGrid × MovementResult :=
  match g.findEntityByType .player with
  | none => (g, { success := false })
  | some player =>
    if ¬player.alive then (g, { success := false })
    else
      let v := getDirectionVector direction
      let newX := player.x + v.1
      let newY := player.y + v.2
      if ¬g.isValidPosition newX newY then (g, { success := false })
      else
        match g.getEntity newX newY with
        | none => movePlayerToPosition g player newX newY
        | some target =>
          match target.kind with
          | .dirt => handleDirtMovement g player target newX newY
          | .diamond => handleDiamondCollection g player newX newY
          | .boulder => handleBoulderPush g player newX newY direction
          | .wall => (g, { success := false })
          | .exitK => handleExitMovement g player target newX newY
          | _ => (g, { success := false })

end MovementSystem

namespace PhysicsSystem

/-- `PhysicsSystem.canRollToPosition`: target cell empty, cell below the
target in-bounds and empty, and the entity below the **current** position a
boulder or diamond (its falling flag is not consulted). -/
def canRollToPosition (g : GameGrid) (fromX fromY toX toY : Int) : Bool :=
  match g.getEntity toX toY with
  | some _ => false
  | none =>
    let belowTargetY := toY + 1
    if belowTargetY ≥ (g.height : Int) then false
    else
      match g.getEntity toX belowTargetY with
      | some _ => false
      | none =>
        let belowCurrentY := fromY + 1
        if belowCurrentY ≥ (g.height : Int) then false
        else
          match g.getEntity fromX belowCurrentY with
          | some below =>
            below.kind = .boulder ∨ below.kind = .diamond
          | none => false

/-- `PhysicsSystem.tryRolling`: tries **left first, then right**
(`directions = [-1, 1]`), and on success moves the entity **sideways only**
(to `(x+d, y)`), without touching its falling flag. -/
def tryRolling (g : GameGrid) (entity : Entity) (x y : Int) :
    GameGrid × Bool :=
  if ¬(entity.kind = .boulder ∨ entity.kind = .diamond) then (g, false)
  else
    let roll1 := fun (dir : Int) (g : GameGrid) =>
      let newX := x + dir
      if newX < 0 ∨ newX ≥ (g.width : Int) then none
      else if canRollToPosition g x y newX y then
        let g1 := (g.removeEntity x y).1
        let e1 := entity.setPosition newX y
        some ((g1.setEntity newX y (some e1)).1)
      else none
    match roll1 (-1) g with
    | some g' => (g', true)
    | none =>
      match roll1 1 g with
      | some g' => (g', true)
      | none => (g, false)

end PhysicsSystem

/-! ## Level (`Level.ts`) -/

/-- `LevelData` -/
structure LevelData where
  name : String
  diamondsRequired : Int
  timeLimit : Rat
  layout : List String

/-- `Level.createEntityFromChar`: the layout mini-language; unknown
characters (and spaces) yield no entity. -/
def createEntityFromChar (diamondsRequired : Int) (c : Char) (x y : Int) :
    Option Entity :=
  if c = '@' then some (Entity.mkPlayer x y)
  else if c = '#' then some (Entity.mkWall x y)
  else if c = '.' then some (Entity.mkDirt x y)
  else if c = '*' then some (Entity.mkDiamond x y)
  else if c = 'O' then some (Entity.mkBoulder x y)
  else if c = 'E' then some (Entity.mkExit x y diamondsRequired)
  else none

/-- `Level.loadLayout`: place one entity per recognised character, row by
row, keeping a reference to the (last) player placed. -/
def loadLayout (rows : List String) (diamondsRequired : Int) (g : GameGrid) :
    GameGrid × Option Entity :=
  rows.enum.foldl
    (fun acc p =>
      p.2.toList.enum.foldl
        (fun acc q =>
          match createEntityFromChar diamondsRequired q.2 q.1 p.1 with
          | some e =>
            ((acc.1.setEntity (q.1 : Int) (p.1 : Int) (some e)).1,
              if e.kind = .player then some e else acc.2)
          | none => acc)
        acc)
    (g, none)

/-- A `Level`: its grid, metadata, and the cached player reference captured
at construction. -/
structure Level where
  grid : GameGrid
  name : String
  diamondsRequired : Int
  timeLimit : Rat
  player : Option Entity

/-- The `Level` constructor: dimensions are derived from the layout
(height = number of rows, width = longest row). -/
def buildLevel (d : LevelData) : Level :=
  let height := d.layout.length
  let width := d.layout.foldl (fun m r => max m r.length) 0
  let g0 : GameGrid := { width, height, cells := fun _ _ => none }
  let r := loadLayout d.layout d.diamondsRequired g0
  { grid := r.1, name := d.name, diamondsRequired := d.diamondsRequired,
    timeLimit := d.timeLimit, player := r.2 }

/-- `Level.isComplete`: the cached player is at the exit's stored position
and has met the **level's** quota.  The exit's `isOpen` flag is *not*
consulted by this function. -/
def Level.isComplete (lv : Level) : Bool :=
  match lv.player with
  | none => false
  | some p =>
    match lv.grid.findEntityByType .exitK with
    | none => false
    | some e =>
      (p.x = e.x ∧ p.y = e.y) ∧ p.diamondsCollected ≥ lv.diamondsRequired

/-! ## Turn scheduler (`GameEngine.ts`) -/

/-- `GameState` of `GameEngine.ts` (event listeners are observers, not
state, and are omitted). -/
structure EngineState where
  level : Level
  levelData : LevelData
  score : Int
  lives : Int
  timeRemaining : Rat
  isPlaying : Bool
  isPaused : Bool
  gameMessage : String
  currentTurn : Int
  lastTurnTime : Rat
  turnProgress : Rat
  currentlyPressedDirection : Option Direction
  lastPressedDirection : Option Direction
  lastPressTime : Rat

namespace GameEngine

/-- `TURN_DURATION_MS` -/
def turnDuration : Rat := 200

/-- `GameEngine.resetAllEntityAnimations` -/
def resetAllEntityAnimations (g : GameGrid) : GameGrid :=
  { g with cells := fun x y =>
      if g.isValidPosition x y then (g.cells x y).map Entity.resetAnimation
      else g.cells x y }

/-- `GameEngine.determinePlayerAction`: currently-held direction first,
then a press within the turn window, else nothing. -/
def determinePlayerAction (st : EngineState) (now : Rat) : Option Direction :=
  match st.currentlyPressedDirection with
  | some d => some d
  | none =>
    match st.lastPressedDirection with
    | some d => if now - st.lastPressTime ≤ turnDuration then some d else none
    | none => none

/-- `GameEngine.handlePlayerDeath`: decrement lives; game over at zero,
otherwise rebuild the level from its original data. -/
def handlePlayerDeath (st : EngineState) : EngineState :=
  let st := { st with lives := st.lives - 1 }
  if st.lives ≤ 0 then { st with isPlaying := false }
  else { st with level := buildLevel st.levelData, isPlaying := true }

/-- JavaScript `result.scoreChange || 10` (a present zero is falsy). -/
def scoreOrTen : Option Int → Int
  | some v => if v = 0 then 10 else v
  | none => 10

/-- `GameEngine.processMovement` (event emission omitted). -/
def processMovement (st : EngineState) (d : Direction) : EngineState :=
  let r := GameLogic.movePlayer st.level.grid d
  let g := r.1
  let result := r.2
  let st := { st with level := { st.level with grid := g } }
  if result.success then
    let st :=
      if result.diamondCollected then
        let st := { st with score := st.score + scoreOrTen result.scoreChange }
        match st.level.grid.findEntityByType .player,
            st.level.grid.findEntityByType .exitK with
        | some p, some e =>
          let e1 := e.checkOpenCondition p.diamondsCollected
          { st with level := { st.level with
              grid := st.level.grid.setCell e.x e.y (some e1) } }
        | _, _ => st
      else st
    let st :=
      if result.levelComplete then { st with isPlaying := false } else st
    if result.playerDied then handlePlayerDeath st else st
  else st

/-- `GameEngine.updatePhysics` (the engine-side wrapper). -/
def enginePhysics (st : EngineState) : EngineState :=
  let r := GameLogic.updatePhysics st.level.grid
  let st := { st with level := { st.level with grid := r.1 } }
  if r.2.playerDied then handlePlayerDeath st else st

/-- `GameEngine.checkGameConditions` -/
def checkGameConditions (st : EngineState) : EngineState :=
  let st :=
    if GameLogic.checkLevelComplete st.level.grid then
      { st with isPlaying := false }
    else st
  if st.lives ≤ 0 then { st with isPlaying := false } else st

/-- `GameEngine.processTurn` -/
def processTurn (st : EngineState) (now : Rat) : EngineState :=
  let st := { st with level := { st.level with
      grid := resetAllEntityAnimations st.level.grid } }
  let st :=
    match determinePlayerAction st now with
    | some d => processMovement st d
    | none => st
  let st := enginePhysics st
  let st := checkGameConditions st
  if now - st.lastPressTime > turnDuration then
    { st with lastPressedDirection := none }
  else st

/-- `GameEngine.handleTimeUp`: lives decrement; with lives remaining the
countdown resets to the level's full time limit, otherwise the game ends. -/
def handleTimeUp (st : EngineState) : EngineState :=
  let st := { st with lives := st.lives - 1 }
  if st.lives > 0 then { st with timeRemaining := st.level.timeLimit }
  else { st with isPlaying := false }

/-- `GameEngine.update(deltaTime)` with `Date.now()` passed explicitly as
`now`: no-op unless playing and unpaused; turn progress is refreshed; a
turn fires when the boundary is reached; **afterwards** the countdown is
decremented by `deltaTime` and, at zero or below, `handleTimeUp` runs. -/
def update (st : EngineState) (deltaTime now : Rat) : EngineState :=
  if ¬st.isPlaying ∨ st.isPaused then st
  else
    let timeSinceLastTurn := now - st.lastTurnTime
    let st := { st with turnProgress := min (timeSinceLastTurn / turnDuration) 1 }
    let st :=
      if timeSinceLastTurn ≥ turnDuration then
        let st1 := processTurn st now
        { st1 with
          lastTurnTime := now
          currentTurn := st1.currentTurn + 1
          turnProgress := 0 }
      else st
    let st := { st with timeRemaining := st.timeRemaining - deltaTime }
    if st.timeRemaining ≤ (0 : Rat) then handleTimeUp st else st

end GameEngine

/-! ## Concrete grids used by witnesses and counterexamples -/

/-- Build a grid of the given dimensions from a cell list. -/
def GameGrid.ofList (w h : Nat) (l : List (Int × Int × Entity)) : GameGrid :=
  l.foldl (fun g e => g.setCell e.1 e.2.1 (some e.2.2))
    { width := w, height := h, cells := fun _ _ => none }

/-! ## Basic lemmas about the grid store -/

namespace GameGrid

theorem isValidPosition_setCell (g : GameGrid) (x y a b : Int)
    (v : Option Entity) :
    (g.setCell x y v).isValidPosition a b = g.isValidPosition a b := rfl

theorem cells_setCell (g : GameGrid) (x y a b : Int) (v : Option Entity) :
    (g.setCell x y v).cells a b =
      if a = x ∧ b = y then v else g.cells a b := rfl

theorem getEntity_setCell (g : GameGrid) (x y a b : Int) (v : Option Entity) :
    (g.setCell x y v).getEntity a b =
      if g.isValidPosition a b then
        (if a = x ∧ b = y then v else g.cells a b)
      else none := by
  simp [getEntity, isValidPosition_setCell, cells_setCell]

theorem getEntity_valid {g : GameGrid} {x y : Int} {e : Entity}
    (h : g.getEntity x y = some e) : g.isValidPosition x y = true := by
  by_cases hv : g.isValidPosition x y
  · exact hv
  · simp [getEntity, hv] at h

theorem getEntity_of_valid {g : GameGrid} {x y : Int}
    (h : g.isValidPosition x y = true) : g.getEntity x y = g.cells x y := by
  simp [getEntity, h]

end GameGrid

/-! ## C8 — grid store operations fail closed; move semantics -/

/-- C8: every coordinate operation of the grid store fails closed on an
out-of-bounds coordinate (returns `false`/`none` and leaves the grid
unchanged); `moveEntity` fails when the destination holds a solid entity,
and otherwise clears the source cell, writes the entity to the destination
cell and updates its stored coordinates to the destination. -/
theorem gridStore_failClosed_move_spec (g : GameGrid)
    (x y fx fy tx ty : Int) (v : Option Entity) (e : Entity) :
    (g.isValidPosition x y = false →
      g.getEntity x y = none ∧ g.setEntity x y v = (g, false) ∧
        g.removeEntity x y = (g, none) ∧
        g.moveEntity x y tx ty = (g, false) ∧
        g.moveEntity fx fy x y = (g, false)) ∧
    (∀ t, g.getEntity tx ty = some t → t.solid = true →
      g.moveEntity fx fy tx ty = (g, false)) ∧
    (g.getEntity fx fy = some e → g.isValidPosition tx ty = true →
      (∀ t, g.getEntity tx ty = some t → t.solid = false) →
      (g.moveEntity fx fy tx ty).2 = true ∧
      (g.moveEntity fx fy tx ty).1.getEntity tx ty =
        some (e.setPosition tx ty) ∧
      (e.setPosition tx ty).x = tx ∧ (e.setPosition tx ty).y = ty ∧
      (¬(fx = tx ∧ fy = ty) →
        (g.moveEntity fx fy tx ty).1.getEntity fx fy = none)) := by
  refine ⟨?_, ?_, ?_⟩
  · intro hxy
    refine ⟨?_, ?_, ?_, ?_, ?_⟩
    · simp [GameGrid.getEntity, hxy]
    · simp [GameGrid.setEntity, hxy]
    · simp [GameGrid.removeEntity, hxy]
    · simp [GameGrid.moveEntity, hxy]
    · simp [GameGrid.moveEntity, hxy]
  · intro t ht hsolid
    have htv := GameGrid.getEntity_valid ht
    by_cases hfv : g.isValidPosition fx fy
    · cases hsrc : g.getEntity fx fy with
      | none => simp [GameGrid.moveEntity, hfv, htv, hsrc]
      | some s => simp [GameGrid.moveEntity, hfv, htv, hsrc, ht, hsolid]
    · simp [GameGrid.moveEntity, hfv]
  · intro hsrc htv hns
    have hfv := GameGrid.getEntity_valid hsrc
    have hmain : g.moveEntity fx fy tx ty =
        (((g.setEntity fx fy none).1.setEntity tx ty (some e)).1, true) := by
      cases ht : g.getEntity tx ty with
      | none => simp [GameGrid.moveEntity, hfv, htv, hsrc, ht]
      | some t =>
        have := hns t ht
        simp [GameGrid.moveEntity, hfv, htv, hsrc, ht, this]
    have hgrid : ((g.setEntity fx fy none).1.setEntity tx ty (some e)).1 =
        (g.setCell fx fy none).setCell tx ty (some (e.setPosition tx ty)) := by
      simp [GameGrid.setEntity, hfv, htv, GameGrid.isValidPosition_setCell]
    refine ⟨by simp [hmain], ?_, ?_, ?_, ?_⟩
    · simp [hmain, hgrid, GameGrid.getEntity_setCell,
        GameGrid.isValidPosition_setCell, htv]
    · simp [Entity.setPosition]
      split <;> rfl
    · simp [Entity.setPosition]
      split <;> rfl
    · intro hne
      have : ¬(fx = tx ∧ fy = ty) := hne
      simp [hmain, hgrid, GameGrid.getEntity_setCell,
        GameGrid.isValidPosition_setCell, GameGrid.cells_setCell, hfv, this]

/-- A 2×1 grid with a player at `(0,0)` used by the C8 witness. -/
def G8 : GameGrid := GameGrid.ofList 2 1 [(0, 0, Entity.mkPlayer 0 0)]

/-- C8 witness: instantiating the theorem on a concrete grid — an
out-of-bounds `get` returns `none`, and a legal move succeeds and places
the entity, with updated coordinates, at the destination. -/
theorem gridStore_failClosed_move_spec_witness :
    G8.getEntity (-1) 0 = none ∧ (G8.moveEntity 0 0 1 0).2 = true ∧
      (G8.moveEntity 0 0 1 0).1.getEntity 1 0 =
        some ((Entity.mkPlayer 0 0).setPosition 1 0) := by
  have h := gridStore_failClosed_move_spec G8 (-1) 0 0 0 1 0 none
    (Entity.mkPlayer 0 0)
  have hns : ∀ t, G8.getEntity 1 0 = some t → t.solid = false := by
    intro t ht
    rw [show G8.getEntity 1 0 = none from by decide] at ht
    cases ht
  have h3 := h.2.2 (by decide) (by decide) hns
  exact ⟨(h.1 (by decide)).1, h3.1, h3.2.1⟩

/-! ## C5 — fall-kill condition -/

/-- C5: during the gravity pass, a boulder or diamond whose cell directly
below holds the Player kills the player (sets `alive := false`) iff the
entity's `falling` flag is true at that moment, and in that case the entity
does not move; a resting entity (`falling = false`) directly above the
player never kills it (the player's cell is left untouched). -/
theorem fallKill_iff_falling (g : GameGrid) (b d p : Entity) (x y : Int)
    (hbelow : g.getEntity x (y + 1) = some p) (hp : p.kind = .player) :
    ((GameLogic.tryMoveBoulderDown g b x y).2.1 = false ∧
      (GameLogic.tryMoveBoulderDown g b x y).2.2 = b.falling ∧
      (b.falling = true →
        (GameLogic.tryMoveBoulderDown g b x y).1.getEntity x (y + 1) =
          some { p with alive := false }) ∧
      (b.falling = false →
        (GameLogic.tryMoveBoulderDown g b x y).1.getEntity x (y + 1) =
          some p)) ∧
    ((GameLogic.tryMoveDiamondDown g d x y).2.1 = false ∧
      (GameLogic.tryMoveDiamondDown g d x y).2.2 = d.falling ∧
      (d.falling = true →
        (GameLogic.tryMoveDiamondDown g d x y).1.getEntity x (y + 1) =
          some { p with alive := false }) ∧
      (d.falling = false →
        (GameLogic.tryMoveDiamondDown g d x y).1.getEntity x (y + 1) =
          some p)) := by
  have hv := GameGrid.getEntity_valid hbelow
  have hne : ¬((x : Int) = x ∧ (y + 1 : Int) = y) := by
    rintro ⟨-, hy⟩
    omega
  have hcells : g.cells x (y + 1) = some p := by
    rw [← GameGrid.getEntity_of_valid hv]
    exact hbelow
  constructor
  · by_cases hf : b.falling
    · simp [GameLogic.tryMoveBoulderDown, hv, hbelow, hp, hf,
        GameGrid.getEntity_setCell, GameGrid.cells_setCell]
    · simp [GameLogic.tryMoveBoulderDown, hv, hbelow, hp, hf,
        GameGrid.getEntity_setCell, GameGrid.cells_setCell, hne, hcells]
  · by_cases hf : d.falling
    · simp [GameLogic.tryMoveDiamondDown, hv, hbelow, hp, hf,
        GameGrid.getEntity_setCell, GameGrid.cells_setCell]
    · simp [GameLogic.tryMoveDiamondDown, hv, hbelow, hp, hf,
        GameGrid.getEntity_setCell, GameGrid.cells_setCell, hne, hcells]

/-- A falling boulder used in the C5 witness. -/
def B5 : Entity := { Entity.mkBoulder 0 0 with falling := true }

/-- A 1×2 grid: falling boulder above the player. -/
def G5 : GameGrid := GameGrid.ofList 1 2 [(0, 0, B5), (0, 1, Entity.mkPlayer 0 1)]

/-- C5 witness: a falling boulder directly above the player does not move
and kills the player. -/
theorem fallKill_iff_falling_witness :
    (GameLogic.tryMoveBoulderDown G5 B5 0 0).2.1 = false ∧
      (GameLogic.tryMoveBoulderDown G5 B5 0 0).2.2 = B5.falling ∧
      (GameLogic.tryMoveBoulderDown G5 B5 0 0).1.getEntity 0 (0 + 1) =
        some { Entity.mkPlayer 0 1 with alive := false } := by
  have h := fallKill_iff_falling G5 B5 B5 (Entity.mkPlayer 0 1) 0 0
    (by decide) (by decide)
  exact ⟨h.1.1, h.1.2.1, h.1.2.2.1 (by decide)⟩

/-! ## C3 — vertical pushes on a boulder -/

/-- C3 (amended, `GameLogic` part): in the turn-based engine's movement
resolver, a player move in a vertical direction whose target cell holds a
boulder always fails with no state change, whatever lies beyond the
boulder. -/
theorem verticalBoulderPush_fails_gameLogic (g : GameGrid) (d : Direction)
    (p t : Entity)
    (hfind : g.findEntityByType .player = some p)
    (halive : p.alive = true)
    (hd : d = .up ∨ d = .down)
    (hvalid : g.isValidPosition (p.x + (GameLogic.getDirectionVector d).1)
      (p.y + (GameLogic.getDirectionVector d).2) = true)
    (htgt : g.getEntity (p.x + (GameLogic.getDirectionVector d).1)
      (p.y + (GameLogic.getDirectionVector d).2) = some t)
    (hk : t.kind = .boulder) :
    GameLogic.movePlayer g d = (g, { success := false }) := by
  rcases hd with rfl | rfl <;>
    simp_all [GameLogic.movePlayer, GameLogic.handleBoulderPush,
      GameLogic.getDirectionVector]

/-- A 1×3 vertical shaft: player above a boulder, empty cell below it. -/
def G3 : GameGrid := GameGrid.ofList 1 3
  [(0, 0, Entity.mkPlayer 0 0), (0, 1, Entity.mkBoulder 0 1)]

/-- C3 counterexample: in `MovementSystem.handleBoulderPush` (which never
checks the push direction) the same vertical push **succeeds**: the
boulder is pushed down one cell and the player moves into its place, so
"vertical pushes always fail" does not hold of that resolver. -/
theorem verticalBoulderPush_succeeds_movementSystem :
    ((G3.getEntity 0 1).map Entity.kind = some .boulder) ∧
      (MovementSystem.movePlayer G3 .down).2.success = true ∧
      ((MovementSystem.movePlayer G3 .down).1.getEntity 0 2).map Entity.kind =
        some .boulder ∧
      ((MovementSystem.movePlayer G3 .down).1.getEntity 0 1).map Entity.kind =
        some .player := by decide

/-- C3 witness: the `GameLogic` theorem applied to the same shaft — the
vertical push fails and the grid is returned unchanged. -/
theorem verticalBoulderPush_fails_gameLogic_witness :
    GameLogic.movePlayer G3 .down = (G3, { success := false }) := by
  exact verticalBoulderPush_fails_gameLogic G3 .down (Entity.mkPlayer 0 0)
    (Entity.mkBoulder 0 1) (by decide) (by decide) (Or.inr rfl) (by decide)
    (by decide) (by decide)

/-! ## C7 — level completion conditions -/

/-- C7 (amended, `GameLogic` part): the completion check run after each
turn by the turn-based engine holds iff the player is at the exit's
position, the quota is met, and the exit is open. -/
theorem levelComplete_iff_three_conditions (g : GameGrid) (p e : Entity)
    (hp : g.findEntityByType .player = some p)
    (he : g.findEntityByType .exitK = some e) :
    (GameLogic.checkLevelComplete g = true ↔
      ((p.x = e.x ∧ p.y = e.y) ∧
        p.diamondsCollected ≥ e.diamondsRequired ∧ e.isOpen = true)) := by
  simp [GameLogic.checkLevelComplete, hp, he]

/-- C7 counterexample state: the player is at the (closed) exit with the
quota met. -/
def LV7 : Level :=
  { grid := GameGrid.ofList 2 1 [(1, 0, Entity.mkExit 1 0 5)]
    name := "t", diamondsRequired := 5, timeLimit := 100
    player := some { Entity.mkPlayer 1 0 with diamondsCollected := 5 } }

/-- C7 counterexample: `Level.isComplete` never consults the exit's
`isOpen` flag — a state with the exit closed (`isOpen = false`) but the
player at the exit with enough gems is reported complete, so "if any one
condition fails, the level is not complete" is false for this checker. -/
theorem levelComplete_without_isOpen_levelIsComplete :
    Level.isComplete LV7 = true ∧
      (LV7.grid.findEntityByType .exitK).map Entity.isOpen = some false := by
  decide

/-- The grid for the C7 witness: the player record (stored position equal
to the exit cell, quota met) and an open exit. -/
def G7 : GameGrid := GameGrid.ofList 2 1
  [(0, 0, { Entity.mkPlayer 1 0 with diamondsCollected := 3 }),
   (1, 0, Entity.mkExit 1 0 0)]

/-- C7 witness: all three conditions hold on `G7`, so the theorem yields
`checkLevelComplete G7 = true`. -/
theorem levelComplete_iff_three_conditions_witness :
    GameLogic.checkLevelComplete G7 = true :=
  (levelComplete_iff_three_conditions G7
    { Entity.mkPlayer 1 0 with diamondsCollected := 3 }
    (Entity.mkExit 1 0 0) (by decide) (by decide)).mpr (by decide)

namespace GameGrid

/-- Shared helper: a move with a live source, a valid destination and a
non-solid (or empty) destination succeeds and is the two-cell rewrite. -/
theorem moveEntity_success {g : GameGrid} {fx fy tx ty : Int} {e : Entity}
    (hsrc : g.getEntity fx fy = some e)
    (htv : g.isValidPosition tx ty = true)
    (hdst : g.getEntity tx ty = none ∨
      ∃ t, g.getEntity tx ty = some t ∧ t.solid = false) :
    g.moveEntity fx fy tx ty =
      ((g.setCell fx fy none).setCell tx ty (some (e.setPosition tx ty)),
        true) := by
  have hfv := getEntity_valid hsrc
  have hgrid : ((g.setEntity fx fy none).1.setEntity tx ty (some e)).1 =
      (g.setCell fx fy none).setCell tx ty (some (e.setPosition tx ty)) := by
    simp [setEntity, hfv, htv, isValidPosition_setCell]
  rcases hdst with hdst | ⟨t, hdst, hts⟩
  · simp [moveEntity, hfv, htv, hsrc, hdst, hgrid]
  · simp [moveEntity, hfv, htv, hsrc, hdst, hts, hgrid]

end GameGrid

/-! ## C1 — diamond collection -/

/-- A 2×1 grid: player at `(0,0)`, a 10-point diamond at `(1,0)`. -/
def G1 : GameGrid := GameGrid.ofList 2 1
  [(0, 0, Entity.mkPlayer 0 0), (1, 0, Entity.mkDiamond 1 0 10)]

/-- C1 counterexample: collecting one diamond worth 10 points leaves the
player's gem counter at **1**, not 10 — `collectDiamond` increments by one
and ignores the diamond's point value. -/
theorem diamondCollection_counter_increments_by_one :
    (G1.getEntity 1 0).map Entity.points = some 10 ∧
      ((GameLogic.movePlayer G1 .right).1.getEntity 1 0).map
        Entity.diamondsCollected = some 1 ∧
      ¬(((GameLogic.movePlayer G1 .right).1.getEntity 1 0).map
        Entity.diamondsCollected = some 10) := by decide

/-- C1 (amended): moving onto a diamond increments the player's gem
counter by exactly **one** (whatever the diamond's point value), reports
`scoreChange` equal to the diamond's point value, removes the diamond from
the grid (the target cell now holds the player), moves the player there
(clearing its old cell), and returns success with
`diamondCollected = true`. -/
theorem diamondCollection_spec (g : GameGrid) (d : Direction) (p t : Entity)
    (hfind : g.findEntityByType .player = some p)
    (halive : p.alive = true)
    (hcell : g.getEntity p.x p.y = some p)
    (hvalid : g.isValidPosition (p.x + (GameLogic.getDirectionVector d).1)
      (p.y + (GameLogic.getDirectionVector d).2) = true)
    (htgt : g.getEntity (p.x + (GameLogic.getDirectionVector d).1)
      (p.y + (GameLogic.getDirectionVector d).2) = some t)
    (hk : t.kind = .diamond) :
    (GameLogic.movePlayer g d).2.success = true ∧
      (GameLogic.movePlayer g d).2.diamondCollected = true ∧
      (GameLogic.movePlayer g d).2.scoreChange = some t.points ∧
      (GameLogic.movePlayer g d).1.getEntity
          (p.x + (GameLogic.getDirectionVector d).1)
          (p.y + (GameLogic.getDirectionVector d).2) =
        some (({ p with diamondsCollected := p.diamondsCollected + 1
          } : Entity).setPosition
          (p.x + (GameLogic.getDirectionVector d).1)
          (p.y + (GameLogic.getDirectionVector d).2)) ∧
      (GameLogic.movePlayer g d).1.getEntity p.x p.y = none := by
  have hpv := GameGrid.getEntity_valid hcell
  set nx := p.x + (GameLogic.getDirectionVector d).1 with hnx
  set ny := p.y + (GameLogic.getDirectionVector d).2 with hny
  have hne : ¬(p.x = nx ∧ p.y = ny) := by
    rcases d <;> simp [GameLogic.getDirectionVector] at hnx hny <;> omega
  -- the grid after recording the incremented counter and removing the diamond
  set p1 : Entity := { p with diamondsCollected := p.diamondsCollected + 1 }
    with hp1
  set g2 : GameGrid :=
    (g.setCell p.x p.y (some p1)).setCell nx ny none with hg2
  have hsrc2 : g2.getEntity p.x p.y = some p1 := by
    simp [hg2, GameGrid.getEntity_setCell, GameGrid.cells_setCell,
      GameGrid.isValidPosition_setCell, hpv, hne]
  have hdst2 : g2.getEntity nx ny = none := by
    simp [hg2, GameGrid.getEntity_setCell, GameGrid.cells_setCell,
      GameGrid.isValidPosition_setCell, hvalid]
  have hmove := GameGrid.moveEntity_success hsrc2 hvalid (Or.inl hdst2)
  have hmm : GameLogic.movePlayer g d =
      ((GameLogic.handleDiamondCollection g p t nx ny).1,
        (GameLogic.handleDiamondCollection g p t nx ny).2) := by
    simp [GameLogic.movePlayer, hfind, halive, ← hnx, ← hny, hvalid, htgt, hk]
  have hdc : GameLogic.handleDiamondCollection g p t nx ny =
      (((g2.setCell p.x p.y none).setCell nx ny
          (some (p1.setPosition nx ny))),
        { success := true, diamondCollected := true,
          scoreChange := some t.points }) := by
    have hrm : (g.setCell p.x p.y (some p1)).removeEntity nx ny =
        (g2, (g.setCell p.x p.y (some p1)).getEntity nx ny) := by
      simp [GameGrid.removeEntity, GameGrid.isValidPosition_setCell, hvalid,
        GameGrid.setEntity, hg2]
    simp [GameLogic.handleDiamondCollection, GameLogic.executePlayerMove,
      hrm, ← hp1, hmove]
  rw [hmm, hdc]
  refine ⟨rfl, rfl, rfl, ?_, ?_⟩
  · simp [hg2, GameGrid.getEntity_setCell, GameGrid.cells_setCell,
      GameGrid.isValidPosition_setCell, hvalid]
  · have hne' : ¬(p.x = nx ∧ p.y = ny) := hne
    simp [hg2, GameGrid.getEntity_setCell, GameGrid.cells_setCell,
      GameGrid.isValidPosition_setCell, hpv, hne']

/-- C1 witness: the amended theorem applied to `G1`. -/
theorem diamondCollection_spec_witness :
    (GameLogic.movePlayer G1 .right).2.success = true ∧
      (GameLogic.movePlayer G1 .right).2.diamondCollected = true ∧
      (GameLogic.movePlayer G1 .right).2.scoreChange = some 10 := by
  have h := diamondCollection_spec G1 .right (Entity.mkPlayer 0 0)
    (Entity.mkDiamond 1 0 10) (by decide) (by decide) (by decide)
    (by decide) (by decide) (by decide)
  exact ⟨h.1, h.2.1, by simpa using h.2.2.1⟩

/-! ## C6 — rolling: right-first tie-break and the side/diagonal condition -/

/-- The claim's rolling precondition for a candidate direction `d`: side
cell `(x+d, y)` and diagonal cell `(x+d, y+1)` both in-bounds and empty. -/
def rollOK (g : GameGrid) (x y d : Int) : Bool :=
  g.isValidPosition (x + d) y ∧ g.isValidPosition (x + d) (y + 1) ∧
    (g.getEntity (x + d) y).isNone ∧ (g.getEntity (x + d) (y + 1)).isNone

/-- Shared helper: `tryRollDirection` succeeds exactly on `rollOK`, moving
the entity one combined diagonal step and setting its falling flag. -/
theorem tryRollDirection_spec (g : GameGrid) (e : Entity) (x y d : Int)
    (hcell : g.getEntity x y = some e)
    (he : e.kind = .boulder ∨ e.kind = .diamond) :
    (rollOK g x y d = true →
      (GameLogic.tryRollDirection g e x y d).2.1 = true ∧
      (GameLogic.tryRollDirection g e x y d).2.2 = false ∧
      (GameLogic.tryRollDirection g e x y d).1.getEntity (x + d) (y + 1) =
        some { e.setPosition (x + d) (y + 1) with falling := true } ∧
      (GameLogic.tryRollDirection g e x y d).1.getEntity x y = none) ∧
    (rollOK g x y d = false →
      GameLogic.tryRollDirection g e x y d = (g, false, false)) := by
  have hv := GameGrid.getEntity_valid hcell
  constructor
  · intro hok
    simp only [rollOK, Bool.and_eq_true, decide_eq_true_eq,
      Option.isNone_iff_eq_none] at hok
    obtain ⟨hv1, hv2, hs, hdg⟩ := hok
    have hmove := GameGrid.moveEntity_success hcell hv2 (Or.inl hdg)
    have hget : ((g.setCell x y none).setCell (x + d) (y + 1)
        (some (e.setPosition (x + d) (y + 1)))).getEntity (x + d) (y + 1) =
        some (e.setPosition (x + d) (y + 1)) := by
      simp [GameGrid.getEntity_setCell, GameGrid.cells_setCell,
        GameGrid.isValidPosition_setCell, hv2]
    have hne : ¬(x = x + d ∧ y = y + 1) := by rintro ⟨-, h⟩; omega
    rcases he with hk | hk <;>
      simp [GameLogic.tryRollDirection, hv1, hv2, hs, hdg, hmove, hget, hk,
        GameGrid.getEntity_setCell, GameGrid.cells_setCell,
        GameGrid.isValidPosition_setCell, hne, hv]
  · intro hok
    simp only [rollOK, Bool.and_eq_true, decide_eq_true_eq,
      Option.isNone_iff_eq_none] at hok
    by_cases hv1 : g.isValidPosition (x + d) y
    · by_cases hv2 : g.isValidPosition (x + d) (y + 1)
      · cases hs : g.getEntity (x + d) y with
        | some s => simp [GameLogic.tryRollDirection, hv1, hv2, hs]
        | none =>
          cases hdg : g.getEntity (x + d) (y + 1) with
          | some t => simp [GameLogic.tryRollDirection, hv1, hv2, hs, hdg]
          | none => simp [hv1, hv2, hs, hdg] at hok
      · simp [GameLogic.tryRollDirection, hv2]
    · simp [GameLogic.tryRollDirection, hv1]

/-- C6 (amended, `GameLogic` part): for an entity sitting on a non-falling
boulder or diamond, `tryRolling` tries right before left; for a candidate
direction `d` rolling succeeds iff the side cell `(x+d, y)` and the
diagonal cell `(x+d, y+1)` are both in-bounds and empty, in which case the
entity moves one combined diagonal step and its falling flag is set true —
in particular, under a symmetric opportunity the entity rolls right. -/
theorem rolling_rightFirst_spec (g : GameGrid) (e b : Entity) (x y : Int)
    (hcell : g.getEntity x y = some e)
    (he : e.kind = .boulder ∨ e.kind = .diamond)
    (hbelow : g.getEntity x (y + 1) = some b)
    (hbk : b.kind = .boulder ∨ b.kind = .diamond)
    (hbf : b.falling = false) :
    (rollOK g x y 1 = true →
      (GameLogic.tryRolling g e x y).2.1 = true ∧
      (GameLogic.tryRolling g e x y).1.getEntity (x + 1) (y + 1) =
        some { e.setPosition (x + 1) (y + 1) with falling := true } ∧
      (GameLogic.tryRolling g e x y).1.getEntity x y = none) ∧
    (rollOK g x y 1 = false → rollOK g x y (-1) = true →
      (GameLogic.tryRolling g e x y).2.1 = true ∧
      (GameLogic.tryRolling g e x y).1.getEntity (x + (-1)) (y + 1) =
        some { e.setPosition (x + (-1)) (y + 1) with falling := true } ∧
      (GameLogic.tryRolling g e x y).1.getEntity x y = none) ∧
    (rollOK g x y 1 = false → rollOK g x y (-1) = false →
      GameLogic.tryRolling g e x y = (g, false, false)) := by
  have hvb := GameGrid.getEntity_valid hbelow
  have hmain : GameLogic.tryRolling g e x y =
      (let r := GameLogic.tryRollDirection g e x y 1
        if r.2.1 then r else GameLogic.tryRollDirection g e x y (-1)) := by
    rcases hbk with hk | hk <;>
      simp [GameLogic.tryRolling, hvb, hbelow, hk, hbf]
  refine ⟨?_, ?_, ?_⟩
  · intro hok1
    have h1 := (tryRollDirection_spec g e x y 1 hcell he).1 hok1
    rw [hmain]
    simp [h1.1, h1.2.2.1, h1.2.2.2]
  · intro hok1 hok2
    have h1 := (tryRollDirection_spec g e x y 1 hcell he).2 hok1
    have h2 := (tryRollDirection_spec g e x y (-1) hcell he).1 hok2
    rw [hmain]
    simp [h1, h2.1, h2.2.2.1, h2.2.2.2]
  · intro hok1 hok2
    have h1 := (tryRollDirection_spec g e x y 1 hcell he).2 hok1
    have h2 := (tryRollDirection_spec g e x y (-1) hcell he).2 hok2
    rw [hmain]
    simp [h1, h2]

/-- A 3×3 grid with a boulder stacked on a resting boulder and both sides
symmetric and free. -/
def G6 : GameGrid := GameGrid.ofList 3 3
  [(1, 0, Entity.mkBoulder 1 0), (1, 1, Entity.mkBoulder 1 1)]

/-- C6 witness: on the symmetric stack the `GameLogic` resolver rolls the
upper boulder to the right diagonal with its falling flag set. -/
theorem rolling_rightFirst_spec_witness :
    (GameLogic.tryRolling G6 (Entity.mkBoulder 1 0) 1 0).2.1 = true ∧
      (GameLogic.tryRolling G6 (Entity.mkBoulder 1 0) 1 0).1.getEntity
          (1 + 1) (0 + 1) =
        some { (Entity.mkBoulder 1 0).setPosition (1 + 1) (0 + 1) with
          falling := true } := by
  have h := rolling_rightFirst_spec G6 (Entity.mkBoulder 1 0)
    (Entity.mkBoulder 1 1) 1 0 (by decide) (Or.inl rfl) (by decide)
    (Or.inl rfl) (by decide)
  exact ⟨(h.1 (by decide)).1, (h.1 (by decide)).2.1⟩

/-- A copy of the symmetric stack for the older physics system. -/
def G6b : GameGrid := GameGrid.ofList 3 3
  [(1, 0, Entity.mkBoulder 1 0), (1, 1, Entity.mkBoulder 1 1)]

/-- C6 counterexample: `PhysicsSystem.tryRolling` (cited by the claim)
tries **left first** and moves the entity **sideways only**: on the same
symmetric stack the boulder ends at `(0,0)` with `falling` still false,
and the right diagonal `(2,1)` stays empty — contradicting "the right
direction is tried before the left" and "moves one combined diagonal step
and its falling flag is set true". -/
theorem rolling_leftFirst_sideways_physicsSystem :
    (PhysicsSystem.tryRolling G6b (Entity.mkBoulder 1 0) 1 0).2 = true ∧
      ((PhysicsSystem.tryRolling G6b (Entity.mkBoulder 1 0) 1 0).1.getEntity
          0 0).map (fun e => (e.kind, e.falling)) =
        some (.boulder, false) ∧
      (PhysicsSystem.tryRolling G6b (Entity.mkBoulder 1 0) 1 0).1.getEntity
          2 1 = none ∧
      (PhysicsSystem.tryRolling G6b (Entity.mkBoulder 1 0) 1 0).1.getEntity
          1 0 = none := by decide

/-! ## C10 — exit move leaves the player referenced at its old cell -/

/-- A 2×1 grid: player at `(0,0)`, an open zero-quota exit at `(1,0)`. -/
def G10 : GameGrid := GameGrid.ofList 2 1
  [(0, 0, Entity.mkPlayer 0 0), (1, 0, Entity.mkExit 1 0 0)]

/-- C10: a successful move onto the open exit only rewrites the player
object's stored coordinates — the resulting grid is exactly the old grid
with the player's **old** cell updated to hold the player record carrying
the exit's coordinates; the exit cell still holds the exit, the old cell
still references the player (stored position ≠ cell position), and the
completion check — which reads stored coordinates, not cell contents —
reports the level complete on the concrete scenario. -/
theorem exitMove_breaks_storedPosition_invariant (g : GameGrid)
    (d : Direction) (p ex : Entity)
    (hfind : g.findEntityByType .player = some p)
    (halive : p.alive = true)
    (hcell : g.getEntity p.x p.y = some p)
    (hvalid : g.isValidPosition (p.x + (GameLogic.getDirectionVector d).1)
      (p.y + (GameLogic.getDirectionVector d).2) = true)
    (htgt : g.getEntity (p.x + (GameLogic.getDirectionVector d).1)
      (p.y + (GameLogic.getDirectionVector d).2) = some ex)
    (hk : ex.kind = .exitK)
    (hquota : p.diamondsCollected ≥ ex.diamondsRequired)
    (hsolid : ex.solid = false) :
    (GameLogic.movePlayer g d =
      (g.setCell p.x p.y (some (p.setPosition
          (p.x + (GameLogic.getDirectionVector d).1)
          (p.y + (GameLogic.getDirectionVector d).2))),
        { success := true, levelComplete := true })) ∧
      (GameLogic.movePlayer g d).1.getEntity p.x p.y =
        some (p.setPosition (p.x + (GameLogic.getDirectionVector d).1)
          (p.y + (GameLogic.getDirectionVector d).2)) ∧
      (GameLogic.movePlayer g d).1.getEntity
          (p.x + (GameLogic.getDirectionVector d).1)
          (p.y + (GameLogic.getDirectionVector d).2) = some ex ∧
      (p.setPosition (p.x + (GameLogic.getDirectionVector d).1)
          (p.y + (GameLogic.getDirectionVector d).2)).x =
        p.x + (GameLogic.getDirectionVector d).1 ∧
      (p.setPosition (p.x + (GameLogic.getDirectionVector d).1)
          (p.y + (GameLogic.getDirectionVector d).2)).y =
        p.y + (GameLogic.getDirectionVector d).2 ∧
      GameLogic.checkLevelComplete (GameLogic.movePlayer G10 .right).1 =
        true ∧
      ((GameLogic.movePlayer G10 .right).1.getEntity 1 0).map Entity.kind =
        some .exitK ∧
      ((GameLogic.movePlayer G10 .right).1.getEntity 0 0).map Entity.kind =
        some .player := by
  have hpv := GameGrid.getEntity_valid hcell
  set nx := p.x + (GameLogic.getDirectionVector d).1 with hnx
  set ny := p.y + (GameLogic.getDirectionVector d).2 with hny
  have hne : ¬(p.x = nx ∧ p.y = ny) := by
    rcases d <;> simp [GameLogic.getDirectionVector] at hnx hny <;> omega
  have hlt : ¬(p.diamondsCollected < ex.diamondsRequired) := not_lt.mpr hquota
  have hmain : GameLogic.movePlayer g d =
      (g.setCell p.x p.y (some (p.setPosition nx ny)),
        { success := true, levelComplete := true }) := by
    simp [GameLogic.movePlayer, hfind, halive, ← hnx, ← hny, hvalid, htgt,
      hk, GameLogic.handleExitMovement, hlt, hsolid]
  refine ⟨hmain, ?_, ?_, ?_, ?_, by decide, by decide, by decide⟩
  · simp [hmain, GameGrid.getEntity_setCell, GameGrid.cells_setCell, hpv]
  · have hcv : g.cells nx ny = some ex := by
      rw [← GameGrid.getEntity_of_valid hvalid]
      exact htgt
    have hne' : ¬(nx = p.x ∧ ny = p.y) := by
      intro h
      exact hne ⟨h.1.symm, h.2.symm⟩
    simp [hmain, GameGrid.getEntity_setCell, GameGrid.cells_setCell, hvalid,
      hne', hcv]
  · simp [Entity.setPosition]
    split <;> rfl
  · simp [Entity.setPosition]
    split <;> rfl

/-- C10 witness: the theorem applied to `G10` — the move reports level
completion and the record still stored at the old player cell `(0,0)`
carries the exit's x-coordinate `1`. -/
theorem exitMove_breaks_storedPosition_invariant_witness :
    (GameLogic.movePlayer G10 .right).2.levelComplete = true ∧
      ((GameLogic.movePlayer G10 .right).1.getEntity 0 0).map Entity.x =
        some 1 := by
  have h := exitMove_breaks_storedPosition_invariant G10 .right
    (Entity.mkPlayer 0 0) (Entity.mkExit 1 0 0) (by decide) (by decide)
    (by decide) (by decide) (by decide) (by decide) (by decide) (by decide)
  constructor
  · rw [h.1]
  · have h21 := h.2.1
    simp only [show (Entity.mkPlayer 0 0).x = 0 from rfl,
      show (Entity.mkPlayer 0 0).y = 0 from rfl] at h21
    rw [h21]
    decide


/-! ## C4 — the gravity pass never visits the bottom row -/

namespace GameGrid

theorem width_setCell (g : GameGrid) (x y : Int) (v : Option Entity) :
    (g.setCell x y v).width = g.width := rfl

theorem height_setCell (g : GameGrid) (x y : Int) (v : Option Entity) :
    (g.setCell x y v).height = g.height := rfl

theorem width_setEntity (g : GameGrid) (x y : Int) (v : Option Entity) :
    (g.setEntity x y v).1.width = g.width := by
  simp only [setEntity]
  repeat' split
  all_goals rfl

theorem height_setEntity (g : GameGrid) (x y : Int) (v : Option Entity) :
    (g.setEntity x y v).1.height = g.height := by
  simp only [setEntity]
  repeat' split
  all_goals rfl

theorem width_moveEntity (g : GameGrid) (a b c d : Int) :
    (g.moveEntity a b c d).1.width = g.width := by
  simp only [moveEntity]
  repeat' split
  all_goals simp [width_setEntity]

theorem height_moveEntity (g : GameGrid) (a b c d : Int) :
    (g.moveEntity a b c d).1.height = g.height := by
  simp only [moveEntity]
  repeat' split
  all_goals simp [height_setEntity]

end GameGrid

namespace GameLogic

theorem width_tryMoveBoulderDown (g : GameGrid) (ent : Entity) (x y : Int) :
    (tryMoveBoulderDown g ent x y).1.width = g.width := by
  simp only [tryMoveBoulderDown]
  repeat' split
  all_goals simp [GameGrid.width_moveEntity, GameGrid.width_setCell]

theorem height_tryMoveBoulderDown (g : GameGrid) (ent : Entity) (x y : Int) :
    (tryMoveBoulderDown g ent x y).1.height = g.height := by
  simp only [tryMoveBoulderDown]
  repeat' split
  all_goals simp [GameGrid.height_moveEntity, GameGrid.height_setCell]

theorem width_tryMoveDiamondDown (g : GameGrid) (ent : Entity) (x y : Int) :
    (tryMoveDiamondDown g ent x y).1.width = g.width := by
  simp only [tryMoveDiamondDown]
  repeat' split
  all_goals simp [GameGrid.width_moveEntity, GameGrid.width_setCell]

theorem height_tryMoveDiamondDown (g : GameGrid) (ent : Entity) (x y : Int) :
    (tryMoveDiamondDown g ent x y).1.height = g.height := by
  simp only [tryMoveDiamondDown]
  repeat' split
  all_goals simp [GameGrid.height_moveEntity, GameGrid.height_setCell]

theorem width_tryRollDirection (g : GameGrid) (ent : Entity) (x y d : Int) :
    (tryRollDirection g ent x y d).1.width = g.width := by
  simp only [tryRollDirection]
  repeat' split
  all_goals simp [GameGrid.width_moveEntity, GameGrid.width_setCell]

theorem height_tryRollDirection (g : GameGrid) (ent : Entity) (x y d : Int) :
    (tryRollDirection g ent x y d).1.height = g.height := by
  simp only [tryRollDirection]
  repeat' split
  all_goals simp [GameGrid.height_moveEntity, GameGrid.height_setCell]

theorem width_tryRolling (g : GameGrid) (ent : Entity) (x y : Int) :
    (tryRolling g ent x y).1.width = g.width := by
  simp only [tryRolling]
  repeat' split
  all_goals simp [width_tryRollDirection]

theorem height_tryRolling (g : GameGrid) (ent : Entity) (x y : Int) :
    (tryRolling g ent x y).1.height = g.height := by
  simp only [tryRolling]
  repeat' split
  all_goals simp [height_tryRollDirection]

theorem width_pass1Step (s : PhysState) (c : Int × Int) :
    (pass1Step s c).1.width = s.1.width := by
  simp only [pass1Step]
  repeat' split
  all_goals
    simp [width_tryMoveBoulderDown, width_tryMoveDiamondDown,
      GameGrid.width_setCell]

theorem height_pass1Step (s : PhysState) (c : Int × Int) :
    (pass1Step s c).1.height = s.1.height := by
  simp only [pass1Step]
  repeat' split
  all_goals
    simp [height_tryMoveBoulderDown, height_tryMoveDiamondDown,
      GameGrid.height_setCell]

theorem width_pass2Step (s : PhysState) (c : Int × Int) :
    (pass2Step s c).1.width = s.1.width := by
  simp only [pass2Step]
  repeat' split
  all_goals simp [width_tryRolling]

theorem height_pass2Step (s : PhysState) (c : Int × Int) :
    (pass2Step s c).1.height = s.1.height := by
  simp only [pass2Step]
  repeat' split
  all_goals simp [height_tryRolling]

end GameLogic

namespace GameLogic

/-- Shared helper: the gravity step at a cell in row `cy ≠ hh` never
touches an occupied cell `(xx, hh)` holding a non-player entity. -/
theorem cells_preserved_tryMoveBoulderDown {g : GameGrid} {ent e : Entity}
    {cx cy xx hh : Int} (hH : cy ≠ hh)
    (hval : g.isValidPosition cx cy = true)
    (hcell : g.cells xx hh = some e) (hk : e.kind ≠ .player) :
    (tryMoveBoulderDown g ent cx cy).1.cells xx hh = some e := by
  have hne1 : ¬(xx = cx ∧ hh = cy) := by rintro ⟨-, h⟩; exact hH h.symm
  simp only [tryMoveBoulderDown]
  split
  · simp [GameGrid.cells_setCell, hne1, hcell]
  · rename_i hvb
    rw [not_not] at hvb
    simp only [GameGrid.getEntity_of_valid hvb]
    cases hbelow : g.cells cx (cy + 1) with
    | none =>
      dsimp only
      by_cases hhit : xx = cx ∧ hh = cy + 1
      · exfalso
        obtain ⟨h1, h2⟩ := hhit
        subst h1
        subst h2
        rw [hcell] at hbelow
        cases hbelow
      · have hsrc1 : (g.setCell cx cy (some { ent with falling := true
            })).getEntity cx cy = some { ent with falling := true } := by
          simp [GameGrid.getEntity_setCell, GameGrid.cells_setCell, hval]
        have hdst1 : (g.setCell cx cy (some { ent with falling := true
            })).getEntity cx (cy + 1) = none := by
          have hne2 : ¬(cx = cx ∧ cy + 1 = cy) := by rintro ⟨-, h⟩; omega
          simp [GameGrid.getEntity_setCell, GameGrid.cells_setCell, hvb,
            hne2, hbelow]
        have hmove := GameGrid.moveEntity_success hsrc1 hvb (Or.inl hdst1)
        simp [hmove, GameGrid.cells_setCell, hne1, hhit, hcell]
    | some entityBelow =>
      dsimp only
      split
      · rename_i hkill
        by_cases hhit : xx = cx ∧ hh = cy + 1
        · exfalso
          obtain ⟨h1, h2⟩ := hhit
          subst h1
          subst h2
          have he := hcell.symm.trans hbelow
          cases he
          exact hk hkill.1
        · simp [GameGrid.cells_setCell, hhit, hcell]
      · simp [GameGrid.cells_setCell, hne1, hcell]

end GameLogic

namespace GameLogic

/-- Twin of the boulder lemma for diamonds. -/
theorem cells_preserved_tryMoveDiamondDown {g : GameGrid} {ent e : Entity}
    {cx cy xx hh : Int} (hH : cy ≠ hh)
    (hval : g.isValidPosition cx cy = true)
    (hcell : g.cells xx hh = some e) (hk : e.kind ≠ .player) :
    (tryMoveDiamondDown g ent cx cy).1.cells xx hh = some e := by
  have hne1 : ¬(xx = cx ∧ hh = cy) := by rintro ⟨-, h⟩; exact hH h.symm
  simp only [tryMoveDiamondDown]
  split
  · simp [GameGrid.cells_setCell, hne1, hcell]
  · rename_i hvb
    rw [not_not] at hvb
    simp only [GameGrid.getEntity_of_valid hvb]
    cases hbelow : g.cells cx (cy + 1) with
    | none =>
      dsimp only
      by_cases hhit : xx = cx ∧ hh = cy + 1
      · exfalso
        obtain ⟨h1, h2⟩ := hhit
        subst h1
        subst h2
        rw [hcell] at hbelow
        cases hbelow
      · have hsrc1 : (g.setCell cx cy (some { ent with falling := true
            })).getEntity cx cy = some { ent with falling := true } := by
          simp [GameGrid.getEntity_setCell, GameGrid.cells_setCell, hval]
        have hdst1 : (g.setCell cx cy (some { ent with falling := true
            })).getEntity cx (cy + 1) = none := by
          have hne2 : ¬(cx = cx ∧ cy + 1 = cy) := by rintro ⟨-, h⟩; omega
          simp [GameGrid.getEntity_setCell, GameGrid.cells_setCell, hvb,
            hne2, hbelow]
        have hmove := GameGrid.moveEntity_success hsrc1 hvb (Or.inl hdst1)
        simp [hmove, GameGrid.cells_setCell, hne1, hhit, hcell]
    | some entityBelow =>
      dsimp only
      split
      · rename_i hkill
        by_cases hhit : xx = cx ∧ hh = cy + 1
        · exfalso
          obtain ⟨h1, h2⟩ := hhit
          subst h1
          subst h2
          have he := hcell.symm.trans hbelow
          cases he
          exact hk hkill.1
        · simp [GameGrid.cells_setCell, hhit, hcell]
      · simp [GameGrid.cells_setCell, hne1, hcell]

/-- The rolling attempt in one direction never touches an occupied cell
`(xx, hh)` when it acts on a source cell in row `cy ≠ hh`. -/
theorem cells_preserved_tryRollDirection {g : GameGrid} {ent e : Entity}
    {cx cy dd xx hh : Int} (hH : cy ≠ hh)
    (hsrc : g.getEntity cx cy = some ent)
    (hcell : g.cells xx hh = some e) :
    (tryRollDirection g ent cx cy dd).1.cells xx hh = some e := by
  have hne1 : ¬(xx = cx ∧ hh = cy) := by rintro ⟨-, h⟩; exact hH h.symm
  simp only [tryRollDirection]
  split
  · exact hcell
  · rename_i hbounds
    rw [not_or] at hbounds
    obtain ⟨hv1, hv2⟩ := hbounds
    rw [not_not] at hv1 hv2
    cases hside : g.getEntity (cx + dd) cy with
    | some s => simp [hside, hcell]
    | none =>
      cases hdiag : g.getEntity (cx + dd) (cy + 1) with
      | some t => simp [hside, hdiag, hcell]
      | none =>
        have hmove := GameGrid.moveEntity_success hsrc hv2 (Or.inl hdiag)
        by_cases hhit : xx = cx + dd ∧ hh = cy + 1
        · exfalso
          obtain ⟨h1, h2⟩ := hhit
          subst h1
          subst h2
          rw [GameGrid.getEntity_of_valid hv2, hcell] at hdiag
          cases hdiag
        · have hgetdiag : ((g.setCell cx cy none).setCell (cx + dd) (cy + 1)
              (some (ent.setPosition (cx + dd) (cy + 1)))).getEntity
                (cx + dd) (cy + 1) =
              some (ent.setPosition (cx + dd) (cy + 1)) := by
            simp [GameGrid.getEntity_setCell, GameGrid.cells_setCell,
              GameGrid.isValidPosition_setCell, hv2]
          simp only [hside, hdiag, hmove]
          split
          · split
            · simp only [hgetdiag]
              simp [GameGrid.cells_setCell, hhit, hne1, hcell]
            · simp [GameGrid.cells_setCell, hhit, hne1, hcell]
          · simp [GameGrid.cells_setCell, hhit, hne1, hcell]

/-- The full rolling attempt (right then left) preserves such a cell. -/
theorem cells_preserved_tryRolling {g : GameGrid} {ent e : Entity}
    {cx cy xx hh : Int} (hH : cy ≠ hh)
    (hsrc : g.getEntity cx cy = some ent)
    (hcell : g.cells xx hh = some e) :
    (tryRolling g ent cx cy).1.cells xx hh = some e := by
  simp only [tryRolling]
  split
  · exact hcell
  · cases hbelow : g.getEntity cx (cy + 1) with
    | none => simp [hbelow, hcell]
    | some b =>
      simp only [hbelow]
      split
      · exact hcell
      · split
        · exact cells_preserved_tryRollDirection hH hsrc hcell
        · exact cells_preserved_tryRollDirection hH hsrc hcell

end GameLogic

namespace GameLogic

/-- One Pass-1 step on a row other than `hh` preserves an occupied
non-player cell `(xx, hh)`. -/
theorem cells_preserved_pass1Step {s : PhysState} {c : Int × Int}
    {e : Entity} {xx hh : Int} (hH : c.2 ≠ hh)
    (hcell : s.1.cells xx hh = some e) (hk : e.kind ≠ .player) :
    (pass1Step s c).1.cells xx hh = some e := by
  have hne1 : ¬(xx = c.1 ∧ hh = c.2) := by rintro ⟨-, h⟩; exact hH h.symm
  cases hsrc : s.1.getEntity c.1 c.2 with
  | none => simp [pass1Step, hsrc, hcell]
  | some ent =>
    have hval := GameGrid.getEntity_valid hsrc
    have hb := @cells_preserved_tryMoveBoulderDown s.1 ent e c.1 c.2 xx hh
      hH hval hcell hk
    have hd := @cells_preserved_tryMoveDiamondDown s.1 ent e c.1 c.2 xx hh
      hH hval hcell hk
    simp only [pass1Step, hsrc]
    repeat' split
    all_goals simp [GameGrid.cells_setCell, hne1, hb, hd, hcell]

/-- One Pass-2 step on a row other than `hh` preserves an occupied
non-player cell `(xx, hh)`. -/
theorem cells_preserved_pass2Step {s : PhysState} {c : Int × Int}
    {e : Entity} {xx hh : Int} (hH : c.2 ≠ hh)
    (hcell : s.1.cells xx hh = some e) :
    (pass2Step s c).1.cells xx hh = some e := by
  cases hsrc : s.1.getEntity c.1 c.2 with
  | none => simp [pass2Step, hsrc, hcell]
  | some ent =>
    have hr := @cells_preserved_tryRolling s.1 ent e c.1 c.2 xx hh hH hsrc
      hcell
    simp only [pass2Step, hsrc]
    repeat' split
    all_goals simp [hr, hcell]

/-- Fold preservation for an arbitrary per-cell step function. -/
theorem cells_preserved_foldl {step : PhysState → Int × Int → PhysState}
    {e : Entity} {xx hh : Int}
    (hstep : ∀ s c, c.2 ≠ hh → s.1.cells xx hh = some e →
      (step s c).1.cells xx hh = some e) :
    ∀ (cs : List (Int × Int)) (s : PhysState), (∀ c ∈ cs, c.2 ≠ hh) →
      s.1.cells xx hh = some e → (cs.foldl step s).1.cells xx hh = some e := by
  intro cs
  induction cs with
  | nil => intro s _ h; exact h
  | cons c cs ih =>
    intro s hmem h
    exact ih (step s c) (fun c' hc' => hmem c' (List.mem_cons_of_mem c hc'))
      (hstep s c (hmem c (List.mem_cons_self c cs)) h)

/-- Fold preservation of grid dimensions. -/
theorem dims_foldl {step : PhysState → Int × Int → PhysState}
    (hw : ∀ s c, (step s c).1.width = s.1.width)
    (hh : ∀ s c, (step s c).1.height = s.1.height) :
    ∀ (cs : List (Int × Int)) (s : PhysState),
      (cs.foldl step s).1.width = s.1.width ∧
        (cs.foldl step s).1.height = s.1.height := by
  intro cs
  induction cs with
  | nil => exact fun s => ⟨rfl, rfl⟩
  | cons c cs ih =>
    intro s
    exact ⟨(ih (step s c)).1.trans (hw s c), (ih (step s c)).2.trans (hh s c)⟩

/-- No coordinate of the physics scan order lies in the bottom row. -/
theorem physCoords_row_ne (w h : Nat) :
    ∀ c ∈ physCoords w h, c.2 ≠ (h : Int) - 1 := by
  intro c hc
  simp only [physCoords, List.mem_flatMap, List.mem_reverse, List.mem_range,
    List.mem_map] at hc
  obtain ⟨y, hy, x, -, rfl⟩ := hc
  simp only [ne_eq]
  intro hEq
  omega

end GameLogic

/-- C4 (amended): the physics scan covers rows `0 .. height-2` only, so an
entity on the bottom row is never processed: after a full physics turn its
cell — including its `falling` flag — is completely unchanged.  (The
out-of-bounds branch of `tryMoveBoulderDown` that would clear the flag is
unreachable from `updatePhysics`.) -/
theorem gravityPass_skips_bottomRow (g : GameGrid) (x : Int) (e : Entity)
    (hk : e.kind = .boulder ∨ e.kind = .diamond)
    (hcell : g.getEntity x ((g.height : Int) - 1) = some e) :
    (GameLogic.updatePhysics g).1.getEntity x ((g.height : Int) - 1) =
      some e := by
  have hv := GameGrid.getEntity_valid hcell
  have hcells : g.cells x ((g.height : Int) - 1) = some e := by
    rw [← GameGrid.getEntity_of_valid hv]
    exact hcell
  have hkp : e.kind ≠ .player := by rcases hk with h | h <;> simp [h]
  have hrow := GameLogic.physCoords_row_ne g.width g.height
  have h1 := @GameLogic.cells_preserved_foldl GameLogic.pass1Step e x
    ((g.height : Int) - 1)
    (fun s c hc h => GameLogic.cells_preserved_pass1Step hc h hkp)
    (GameLogic.physCoords g.width g.height) (g, false, false) hrow hcells
  have h2 := @GameLogic.cells_preserved_foldl GameLogic.pass2Step e x
    ((g.height : Int) - 1)
    (fun s c hc h => GameLogic.cells_preserved_pass2Step hc h)
    (GameLogic.physCoords g.width g.height)
    ((GameLogic.physCoords g.width g.height).foldl GameLogic.pass1Step
      (g, false, false)) hrow h1
  have hd1 := GameLogic.dims_foldl GameLogic.width_pass1Step
    GameLogic.height_pass1Step (GameLogic.physCoords g.width g.height)
    (g, false, false)
  have hd2 := GameLogic.dims_foldl GameLogic.width_pass2Step
    GameLogic.height_pass2Step (GameLogic.physCoords g.width g.height)
    ((GameLogic.physCoords g.width g.height).foldl GameLogic.pass1Step
      (g, false, false))
  have hw : ((GameLogic.physCoords g.width g.height).foldl
      GameLogic.pass2Step
      ((GameLogic.physCoords g.width g.height).foldl GameLogic.pass1Step
        (g, false, false))).1.width = g.width := hd2.1.trans hd1.1
  have hht : ((GameLogic.physCoords g.width g.height).foldl
      GameLogic.pass2Step
      ((GameLogic.physCoords g.width g.height).foldl GameLogic.pass1Step
        (g, false, false))).1.height = g.height := hd2.2.trans hd1.2
  have hvalid2 : ((GameLogic.physCoords g.width g.height).foldl
      GameLogic.pass2Step
      ((GameLogic.physCoords g.width g.height).foldl GameLogic.pass1Step
        (g, false, false))).1.isValidPosition x ((g.height : Int) - 1) =
      true := by
    rw [GameGrid.isValidPosition, hw, hht]
    rw [GameGrid.isValidPosition] at hv
    exact hv
  simp only [GameLogic.updatePhysics]
  rw [GameGrid.getEntity, hvalid2]
  simp only [if_true]
  exact h2

/-- The C4 counterexample grid: a 1×3 shaft with a boulder resting on the
bottom row, its falling flag still true (as after the spec's scenario A). -/
def G4 : GameGrid := GameGrid.ofList 1 3
  [(0, 2, { Entity.mkBoulder 0 2 with falling := true })]

/-- C4 counterexample: the next executed physics turn does **not** clear
the falling flag of the boulder resting on the grid floor — the flag is
still true after `updatePhysics`, contradicting "has falling=false after
the next executed turn's physics pass". -/
theorem bottomRow_falling_flag_not_cleared :
    ((GameLogic.updatePhysics G4).1.getEntity 0 2).map
        (fun e => (e.kind, e.falling)) = some (.boulder, true) ∧
      (GameLogic.updatePhysics G4).2 =
        { entityMoved := false, playerDied := false } := by decide

/-- C4 witness: the amended theorem applied to `G4` — the bottom-row
boulder's cell is bit-for-bit unchanged by the physics turn. -/
theorem gravityPass_skips_bottomRow_witness :
    (GameLogic.updatePhysics G4).1.getEntity 0 ((3 : Nat) - 1 : Int) =
      some { Entity.mkBoulder 0 2 with falling := true } := by
  have h := gravityPass_skips_bottomRow G4 0
    { Entity.mkBoulder 0 2 with falling := true } (Or.inl rfl) (by decide)
  simpa using h

/-! ## C2 — the single-move-per-turn invariant -/

/-- The marked diamond used to track identity across the physics turn. -/
def D2 : Entity := Entity.mkDiamond 1 0 77

/-- A 3×4 grid: the marked diamond at `(1,0)` over an empty cell, a
resting boulder at `(1,2)` on a wall at `(1,3)`. -/
def G2 : GameGrid := GameGrid.ofList 3 4
  [(1, 0, D2), (1, 2, Entity.mkBoulder 1 2), (1, 3, Entity.mkWall 1 3)]

set_option maxRecDepth 8000 in
/-- C2 counterexample: the diamond (identified by its 77-point marker)
starts at `(1,0)` with empty space below, and after **one** executed
physics turn it sits at `(2,2)` — two rows down and one column over, so a
fallable entity moved more than one cell (and more than one row) in a
single turn. -/
theorem fallable_moves_two_cells_in_one_turn :
    (G2.getEntity 1 0).map (fun e => (e.kind, e.points)) =
        some (.diamond, 77) ∧
      G2.getEntity 1 1 = none ∧
      ((GameLogic.updatePhysics G2).1.getEntity 2 2).map
        (fun e => (e.kind, e.points)) = some (.diamond, 77) ∧
      (GameLogic.updatePhysics G2).1.getEntity 1 0 = none ∧
      (GameLogic.updatePhysics G2).1.getEntity 1 1 = none ∧
      (GameLogic.updatePhysics G2).1.getEntity 2 1 = none := by decide

set_option maxRecDepth 8000 in
/-- C2 (amended): Pass 1 moves the diamond exactly one row down (to
`(1,1)`, falling), but Pass 2 considers **all** boulders/diamonds — also
those that already fell in Pass 1 — so the same entity then rolls
diagonally off the resting boulder in the same turn: its final record at
`(2,2)` still carries previous position `(1,1)`, the cell it reached in
Pass 1. -/
theorem pass2_rolls_entity_that_fell_in_pass1 :
    (((GameLogic.physCoords G2.width G2.height).foldl GameLogic.pass1Step
          (G2, false, false)).1.getEntity 1 1).map
        (fun e => (e.kind, e.points, e.falling)) =
      some (.diamond, 77, true) ∧
      ((GameLogic.updatePhysics G2).1.getEntity 2 2).map
          (fun e => (e.previousX, e.previousY, e.falling, e.points)) =
        some (1, 1, true, 77) := by decide

/-! ## C9 — countdown, time-up and the turn boundary -/

/-- C9 (amended): on a Playing, unpaused `update` call that does not cross
a turn boundary, the countdown decreases by exactly `deltaTime`; if it
thereby reaches zero or below, time-up triggers in the same call: lives
decrement and, with lives remaining, the countdown resets to the level's
full time limit while Playing continues; with no lives remaining the
engine leaves Playing (GameOver).  (When the call *does* cross a turn
boundary the turn executes before the countdown check — see the
counterexample theorem.) -/
theorem engineUpdate_time_spec (st : EngineState) (dt now : Rat)
    (hplay : st.isPlaying = true) (hpause : st.isPaused = false)
    (hnoturn : now - st.lastTurnTime < GameEngine.turnDuration) :
    (st.timeRemaining - dt > 0 →
      (GameEngine.update st dt now).timeRemaining = st.timeRemaining - dt ∧
      (GameEngine.update st dt now).lives = st.lives ∧
      (GameEngine.update st dt now).currentTurn = st.currentTurn ∧
      (GameEngine.update st dt now).isPlaying = true) ∧
    (st.timeRemaining - dt ≤ 0 →
      (GameEngine.update st dt now).lives = st.lives - 1 ∧
      (GameEngine.update st dt now).currentTurn = st.currentTurn ∧
      (st.lives - 1 > 0 →
        (GameEngine.update st dt now).timeRemaining = st.level.timeLimit ∧
        (GameEngine.update st dt now).isPlaying = true) ∧
      (st.lives - 1 ≤ 0 →
        (GameEngine.update st dt now).isPlaying = false)) := by
  have hnb : ¬(now - st.lastTurnTime ≥ GameEngine.turnDuration) :=
    not_le.mpr hnoturn
  constructor
  · intro hpos
    have hgt : ¬(st.timeRemaining - dt ≤ 0) := not_le.mpr hpos
    simp [GameEngine.update, hplay, hpause, hnb, hgt]
  · intro hle
    by_cases hlv : st.lives - 1 > 0
    · have hlv' : ¬(st.lives - 1 ≤ 0) := not_le.mpr hlv
      simp [GameEngine.update, GameEngine.handleTimeUp, hplay, hpause, hnb,
        hle, hlv, hlv']
    · have hlv' : st.lives - 1 ≤ 0 := not_lt.mp hlv
      simp [GameEngine.update, GameEngine.handleTimeUp, hplay, hpause, hnb,
        hle, hlv, hlv']

/-- A trivial one-cell level for the engine states below. -/
def LV9 : Level :=
  { grid := GameGrid.ofList 1 1 [(0, 0, Entity.mkWall 0 0)]
    name := "t", diamondsRequired := 1, timeLimit := 100, player := none }

/-- The level data for that level. -/
def LD9 : LevelData :=
  { name := "t", diamondsRequired := 1, timeLimit := 100, layout := ["#"] }

/-- An engine state at a turn boundary whose countdown is about to expire. -/
def E9 : EngineState :=
  { level := LV9
    levelData := LD9
    score := 0
    lives := 2
    timeRemaining := 5
    isPlaying := true
    isPaused := false
    gameMessage := ""
    currentTurn := 0
    lastTurnTime := 0
    turnProgress := 0
    currentlyPressedDirection := none
    lastPressedDirection := none
    lastPressTime := 0 }

/-- C9 counterexample: with `now = 1000` (a turn boundary is due) and
`deltaTime = 10 > timeRemaining = 5`, the **same** `update` call both
executes a turn (`currentTurn` goes 0 → 1) and triggers time-up
(`lives` 2 → 1, countdown reset to the full limit): the claim's "returns
immediately with no turn executed in that same call" is false — the turn
runs before the countdown is checked. -/
theorem turn_executes_in_timeup_call :
    (GameEngine.update E9 10 1000).currentTurn = E9.currentTurn + 1 ∧
      (GameEngine.update E9 10 1000).lives = E9.lives - 1 ∧
      (GameEngine.update E9 10 1000).timeRemaining = E9.level.timeLimit ∧
      (GameEngine.update E9 10 1000).isPlaying = true := by
  norm_num +decide [GameEngine.update, GameEngine.processTurn,
    GameEngine.handleTimeUp, GameEngine.resetAllEntityAnimations,
    GameEngine.determinePlayerAction, GameEngine.enginePhysics,
    GameEngine.checkGameConditions, GameEngine.turnDuration,
    GameLogic.updatePhysics, GameLogic.physCoords,
    GameLogic.checkLevelComplete, GameGrid.findEntityByType,
    GameGrid.scanCoords, E9, LV9, LD9, GameGrid.ofList, GameGrid.setCell,
    GameGrid.isValidPosition, GameGrid.getEntity, Entity.resetAnimation,
    Entity.mkWall, List.findSome?]

/-- The same engine state away from a turn boundary. -/
def E9b : EngineState := { E9 with lastTurnTime := 900 }

/-- C9 witness: the amended theorem applied to `E9b` — time-up with one
life remaining decrements lives, resets the countdown to the full limit
and keeps Playing, with no turn executed. -/
theorem engineUpdate_time_spec_witness :
    (GameEngine.update E9b 10 1000).lives = E9b.lives - 1 ∧
      (GameEngine.update E9b 10 1000).currentTurn = E9b.currentTurn ∧
      (GameEngine.update E9b 10 1000).timeRemaining = E9b.level.timeLimit ∧
      (GameEngine.update E9b 10 1000).isPlaying = true := by
  have h := (engineUpdate_time_spec E9b 10 1000 rfl rfl
    (by norm_num [E9b, E9, GameEngine.turnDuration])).2
    (by norm_num [E9b, E9])
  have hl : E9b.lives - 1 > 0 := by norm_num [E9b, E9]
  exact ⟨h.1, h.2.1, (h.2.2.1 hl).1, (h.2.2.1 hl).2⟩
